import Mathlib

/-!
Shallow embedding of `src/main.py` (a Streamlit dashboard that fetches
Netatmo weather-station readings and charts temperatures), together with
proofs about it.

Conventions of the embedding:
* Machine floats become `ℚ` (every literal in scope is exact and no
  float-rounding behaviour is claimed); Unix timestamps become `Nat`.
  `datetime.fromtimestamp` is a strictly monotone conversion, so a point's
  `Time` field is represented by the epoch seconds it was built from.
* A Python dict field that the program may find absent becomes an
  `Option`; reading an absent field where the source subscripts directly
  is a `KeyError`.  Per the vendor payload shape (spec §3), a
  `dashboard_data` object always carries its capture timestamp `time_utc`,
  so that field is total.
* Fallible Python code becomes `Except PyError`; an uncaught exception is
  an `Except.error`.
-/

namespace Netatmo

/-- The Python exceptions that the script can raise or catch. -/
inductive PyError where
  | nameError (name : String)
  | typeError (msg : String)
  | keyError (key : String)
  | attributeError (attr : String)
  | valueError (msg : String)
  | httpError (status : Nat)
  | transportError (msg : String)
deriving DecidableEq, Repr

/-! ### Data model of the shaper (main.py lines 106–153)

The raw JSON records that `prepare_data`'s device loop reads.  Fields the
loop subscripts directly but that a malformed record can lack
(`station_name`, `type`, `module_name`) are `Option`s; `modules` models
`device.get('modules', [])`, where an absent list behaves like `[]`. -/

/-- One `dashboard_data` object: capture timestamp plus an optional
`Temperature` measurement (the only measurement the script reads). -/
structure Dashboard where
  time_utc : Nat
  Temperature : Option ℚ
deriving DecidableEq, Repr

/-- One module record nested under a station. -/
structure Module where
  module_name : Option String
  dashboard_data : Option Dashboard
deriving DecidableEq, Repr

/-- One station record of the `devices` array. -/
structure Device where
  station_name : Option String
  type : Option String
  modules : List Module
  dashboard_data : Option Dashboard
deriving DecidableEq, Repr

/-- One row of `data_list` (main.py lines 118–123 and 131–136). -/
structure TemperaturePoint where
  Time : Nat
  Temperature : ℚ
  Device : String
  Module : String
deriving DecidableEq, Repr

/-- Python dict read `d[k]` on an association list. -/
def getKey {α : Type} (l : List (String × α)) (k : String) : Option α :=
  match l.find? (fun e => e.1 == k) with
  | some e => some e.2
  | none => none

/-- Python dict write `d[k] = v`: overwrite in place if the key exists,
otherwise append (Python dicts keep insertion order). -/
def setKey {α : Type} (l : List (String × α)) (k : String) (v : α) : List (String × α) :=
  if l.any (fun e => e.1 == k) then
    l.map (fun e => if e.1 == k then (k, v) else e)
  else
    l ++ [(k, v)]

/-- The running `max(max_temp, t)` of main.py lines 125 and 138, where
`none` stands for the initial `float(-inf)` (line 114). -/
def maxWithNegInf (m : Option ℚ) (t : ℚ) : Option ℚ :=
  match m with
  | none => some t
  | some x => some (max x t)

/-- The `device_data_counts[device_name] += 1` of main.py lines 124 and 137.
Line 113 has already set the key, so the lookup cannot miss; the `none`
branch is unreachable. -/
def bumpCount (cs : List (String × Nat)) (k : String) : List (String × Nat) :=
  match getKey cs k with
  | some n => setKey cs k (n + 1)
  | none => cs

/-- The loop state of `prepare_data`: `data_list`, `device_data_counts` and
`max_temps` (main.py lines 106–108). -/
structure ShapeState where
  data_list : List TemperaturePoint
  device_data_counts : List (String × Nat)
  max_temps : List (String × (ℚ × Nat))
deriving DecidableEq, Repr

/-- Main.py lines 117–123: the point emitted from the station's own
`dashboard_data`, when present and Temperature-bearing. -/
def mainUnitStep (device_name : String) (ddo : Option Dashboard) : Option TemperaturePoint :=
  match ddo with
  | none => none
  | some dd =>
    match dd.Temperature with
    | none => none
    | some t => some ⟨dd.time_utc, t, device_name, "Main Unit"⟩

/-- Main.py line 129 plus lines 130–136: reading one module record.
`module_name = module['module_name']` runs before the Temperature check,
so a record with no `module_name` key raises `KeyError`; a record whose
`dashboard_data` is absent or lacks `Temperature` yields no point. -/
def moduleStep (device_name : String) (m : Module) : Except PyError (Option TemperaturePoint) :=
  match m.module_name with
  | none => .error (.keyError "module_name")
  | some module_name =>
    match m.dashboard_data with
    | none => .ok none
    | some dd =>
      match dd.Temperature with
      | none => .ok none
      | some t => .ok (some ⟨dd.time_utc, t, device_name, module_name⟩)

/-- The `for module in modules` loop of main.py lines 128–138, threading
`data_list`, `device_data_counts` and `max_temp`. -/
def shapeModules (device_name : String) (dl : List TemperaturePoint)
    (cs : List (String × Nat)) (mt : Option ℚ) :
    List Module → Except PyError (List TemperaturePoint × List (String × Nat) × Option ℚ)
  | [] => .ok (dl, cs, mt)
  | m :: ms =>
    match moduleStep device_name m with
    | .error e => .error e
    | .ok none => shapeModules device_name dl cs mt ms
    | .ok (some p) =>
        shapeModules device_name (dl ++ [p]) (bumpCount cs device_name)
          (maxWithNegInf mt p.Temperature) ms

/-- The tail of one device iteration, main.py lines 128–142: run the module
loop from the state left by the main-unit check, then record the
aggregates.  Lines 140–142 set
`max_temps[device_name] = (max_temp, max_temp_time)` where `max_temp_time`
is `max` of the `Time` of every point of `data_list` whose `Device` equals
`device_name` (line 141); `max` of an empty sequence would be a
`ValueError`, but a finite `max_temp` guarantees at least one such point. -/
def shapeDeviceRest (st : ShapeState) (device : Device) (device_name : String)
    (dl : List TemperaturePoint) (cs : List (String × Nat)) (mt : Option ℚ) :
    Except PyError ShapeState :=
  match shapeModules device_name dl cs mt device.modules with
  | .error e => .error e
  | .ok (dl2, counts2, mt2) =>
    match mt2 with
    | none => .ok ⟨dl2, counts2, st.max_temps⟩
    | some max_temp =>
      match ((dl2.filter (fun p => p.Device == device_name)).map
          (fun p => p.Time)).max? with
      | none => .error (.valueError "max() arg is an empty sequence")
      | some max_temp_time =>
          .ok ⟨dl2, counts2, setKey st.max_temps device_name (max_temp, max_temp_time)⟩

/-- One iteration of the `for device in devices` loop, main.py lines
109–142.  Lines 110–111 subscript `station_name` and `type` directly, so a
record lacking either raises `KeyError`.  Line 113 seeds the count, lines
117–125 handle the main unit, and the rest is `shapeDeviceRest`. -/
def shapeDevice (st : ShapeState) (device : Device) : Except PyError ShapeState :=
  match device.station_name with
  | none => .error (.keyError "station_name")
  | some device_name =>
    match device.type with
    | none => .error (.keyError "type")
    | some _device_type =>
      match mainUnitStep device_name device.dashboard_data with
      | none =>
        shapeDeviceRest st device device_name st.data_list
          (setKey st.device_data_counts device_name 0) none
      | some p =>
        shapeDeviceRest st device device_name (st.data_list ++ [p])
          (bumpCount (setKey st.device_data_counts device_name 0) device_name)
          (maxWithNegInf none p.Temperature)

/-- The whole device loop from a given state. -/
def shapeDevicesFrom (st : ShapeState) : List Device → Except PyError ShapeState
  | [] => .ok st
  | d :: ds =>
    match shapeDevice st d with
    | .error e => .error e
    | .ok st1 => shapeDevicesFrom st1 ds

/-- Main.py lines 106–142 as a function of the `devices` array. -/
def shape_devices (devices : List Device) : Except PyError ShapeState :=
  shapeDevicesFrom ⟨[], [], []⟩ devices

/-- The comparison `df.sort_values('Time')` sorts by: ascending capture
time. -/
def timeLE (a b : TemperaturePoint) : Prop := a.Time ≤ b.Time

instance : DecidableRel timeLE := fun a b => Nat.decLe a.Time b.Time

instance : IsTotal TemperaturePoint timeLE := ⟨fun a b => Nat.le_total a.Time b.Time⟩

instance : IsTrans TemperaturePoint timeLE := ⟨fun _ _ _ h1 h2 => Nat.le_trans h1 h2⟩

/-- Main.py lines 150–153: the dataframe, i.e. `data_list` sorted ascending
by `Time` (a no-op when empty, exactly as sorting `[]` is). -/
def sortPoints (pts : List TemperaturePoint) : List TemperaturePoint :=
  List.insertionSort timeLE pts

/-- The shaping stage of `prepare_data` (main.py lines 106–153) end to end:
flatten the `devices` array, then sort by time. -/
def prepare_points (devices : List Device) : Except PyError (List TemperaturePoint) :=
  match shape_devices devices with
  | .error e => .error e
  | .ok st => .ok (sortPoints st.data_list)

/-! ### JSON values and the network boundary (main.py lines 32–104, 162–176)

The token/fetch code manipulates untyped JSON, so it is modelled over a
small Python-value type; HTTP traffic is an oracle the run is parameterised
by. -/

/-- An untyped Python/JSON value. -/
inductive PyVal where
  | none
  | bool (b : Bool)
  | int (n : Int)
  | num (q : ℚ)
  | str (s : String)
  | list (xs : List PyVal)
  | dict (entries : List (String × PyVal))

/-- Python string subscription `v[k]`: a key lookup on a dict, a `TypeError`
on a list or any other value. -/
def PyVal.getItemS : PyVal → String → Except PyError PyVal
  | .dict es, k =>
    match es.find? (fun e => e.1 == k) with
    | some e => .ok e.2
    | Option.none => .error (.keyError k)
  | .list _, _ => .error (.typeError "list indices must be integers or slices, not str")
  | _, _ => .error (.typeError "object is not subscriptable")

/-- Python `v.get(k, default)`: defined on dicts only; any other value has
no `get` attribute. -/
def pyDictGet (v : PyVal) (k : String) (default : PyVal) : Except PyError PyVal :=
  match v with
  | .dict es =>
    .ok (match es.find? (fun e => e.1 == k) with
         | some e => e.2
         | Option.none => default)
  | _ => .error (.attributeError "get")

/-- Python iteration `for x in v`. -/
def pyIter : PyVal → Except PyError (List PyVal)
  | .list xs => .ok xs
  | .dict es => .ok (es.map (fun e => .str e.1))
  | .str s => .ok (s.toList.map (fun c => .str (String.singleton c)))
  | _ => .error (.typeError "object is not iterable")

/-- Python truthiness, for the `if not device_id` test on line 72. -/
def pyFalsy : PyVal → Bool
  | .none => true
  | .bool b => !b
  | .int n => n == 0
  | .num q => q == 0
  | .str s => s.isEmpty
  | .list xs => xs.isEmpty
  | .dict es => es.isEmpty

/-- A `requests` response: its HTTP status and the outcome of `.json()`. -/
structure HttpResponse where
  status : Nat
  json : Except PyError PyVal

/-- The ambient run environment: the network oracle behind `requests.post`
(an `Except.error` is a transport failure), the clock behind
`datetime.now()`, and the three secrets of main.py lines 33–35. -/
structure Env where
  post : String → PyVal → Except PyError HttpResponse
  now : Nat
  client_id : String
  client_secret : String
  refresh_token : String

/-- `response.raise_for_status()`: raises `HTTPError` on a 4xx/5xx status. -/
def raise_for_status (r : HttpResponse) : Except PyError Unit :=
  if 400 ≤ r.status then .error (.httpError r.status) else .ok ()

/-- Main.py line 38. -/
def TOKEN_URL : String := "https://api.netatmo.com/oauth2/token"

/-- Main.py line 39. -/
def DATA_URL : String := "https://api.netatmo.com/api/getstationsdata"

/-- The module-level global bindings of main.py that name API URLs: exactly
`TOKEN_URL` and `DATA_URL` (lines 38–39).  No binding for `DEVICES_URL`
exists anywhere in the script. -/
def urlGlobals : List (String × String) :=
  [("TOKEN_URL", TOKEN_URL), ("DATA_URL", DATA_URL)]

/-- Resolution of a global URL name: an unbound name raises `NameError`. -/
def lookupUrlGlobal (name : String) : Except PyError String :=
  match urlGlobals.find? (fun e => e.1 == name) with
  | some e => .ok e.2
  | none => .error (.nameError name)

/-- Main.py lines 41–49: exchange the refresh token for an access token.
No guard: a transport failure, a JSON decode failure or a missing
`access_token` key propagates as an exception. -/
def get_access_token (env : Env) : Except PyError PyVal := do
  let data : PyVal := .dict
    [("grant_type", .str "refresh_token"),
     ("refresh_token", .str env.refresh_token),
     ("client_id", .str env.client_id),
     ("client_secret", .str env.client_secret)]
  let url ← lookupUrlGlobal "TOKEN_URL"
  let response ← env.post url data
  let j ← response.json
  j.getItemS "access_token"

/-- The `devices_params` dict of main.py lines 54–57. -/
def devicesParams (access_token : PyVal) : PyVal :=
  .dict [("access_token", access_token), ("get_favorites", .bool false)]

/-- The `measurements_params` dict of main.py lines 77–86, with the trailing
7-day window computed from the clock. -/
def measurementsParams (env : Env) (access_token device_id : PyVal) : PyVal :=
  .dict [("access_token", access_token), ("device_id", device_id),
         ("scale", .str "30min"), ("type", .str "Temperature"),
         ("date_begin", .int (Int.ofNat env.now - 7 * 24 * 60 * 60)),
         ("date_end", .int (Int.ofNat env.now)),
         ("optimize", .bool false), ("real_time", .bool false)]

/-- The per-device measurements loop of main.py lines 70–95.  A device
record with a falsy or absent `_id` is skipped with a warning (lines
72–74).  Any error inside the inner try (lines 87–91) reaches an except
arm whose log message subscripts `device["station_name"]` — but the local
name `device` is unbound in `fetch_data` (the loop variable is
`device_data`), so the handler itself raises `NameError` (lines 92–95). -/
def fetchMeasurementsLoop (env : Env) (access_token : PyVal) (acc : List PyVal) :
    List PyVal → Except PyError (List PyVal)
  | [] => .ok acc
  | device_data :: rest =>
    match pyDictGet device_data "_id" PyVal.none with
    | .error e => .error e
    | .ok device_id =>
      if pyFalsy device_id then
        fetchMeasurementsLoop env access_token acc rest
      else
        match (do
            let url ← lookupUrlGlobal "DATA_URL"
            let measurements_response ← env.post url
              (measurementsParams env access_token device_id)
            let _ ← raise_for_status measurements_response
            let j ← measurements_response.json
            let body ← j.getItemS "body"
            pyIter body) with
        | .ok items => fetchMeasurementsLoop env access_token (acc ++ items) rest
        | .error _ => .error (.nameError "device")

/-- Main.py lines 52–98.  The guarded try (lines 58–67) first resolves the
name `DEVICES_URL` (line 59); both except arms (lines 62–67) log and
`return []`, so any failure inside the try yields the empty list.  On
success, the per-device loop (which is itself outside the guarded try)
builds `all_measurements`. -/
def fetch_data (env : Env) (access_token : PyVal) : Except PyError PyVal :=
  match (do
      let url ← lookupUrlGlobal "DEVICES_URL"
      let devices_response ← env.post url (devicesParams access_token)
      let _ ← raise_for_status devices_response
      devices_response.json) with
  | .error _ => .ok (.list [])
  | .ok devices_data => do
    let devList ← pyDictGet devices_data "devices" (.list [])
    let devices ← pyIter devList
    let ms ← fetchMeasurementsLoop env access_token [] devices
    .ok (.list ms)

/-! ### Bridging JSON values to the shaper's records

The device loop of `prepare_data` reads the fields `station_name`, `type`,
`modules`, `dashboard_data` (with `time_utc` and `Temperature`) and
`module_name`.  These decoders read a JSON value into the record form the
loop consumes; a field that is absent or not of the read shape becomes
`none` (matching the `Option` fields above). -/

/-- Read an optional string field of a JSON dict. -/
def decodeStrField (es : List (String × PyVal)) (k : String) : Option String :=
  match es.find? (fun e => e.1 == k) with
  | some ⟨_, .str s⟩ => some s
  | _ => none

/-- Read a `dashboard_data` value. -/
def decodeDashboard : PyVal → Option Dashboard
  | .dict es =>
    match es.find? (fun e => e.1 == "time_utc") with
    | some ⟨_, .int n⟩ =>
      some ⟨n.toNat,
        match es.find? (fun e => e.1 == "Temperature") with
        | some ⟨_, .num q⟩ => some q
        | some ⟨_, .int m⟩ => some (m : ℚ)
        | _ => none⟩
    | _ => none
  | _ => none

/-- Read one module record. -/
def decodeModule : PyVal → Module
  | .dict es =>
    ⟨decodeStrField es "module_name",
     match es.find? (fun e => e.1 == "dashboard_data") with
     | some e => decodeDashboard e.2
     | none => none⟩
  | _ => ⟨none, none⟩

/-- Read one station record. -/
def decodeDevice : PyVal → Device
  | .dict es =>
    ⟨decodeStrField es "station_name",
     decodeStrField es "type",
     (match es.find? (fun e => e.1 == "modules") with
      | some ⟨_, .list ms⟩ => ms.map decodeModule
      | _ => []),
     match es.find? (fun e => e.1 == "dashboard_data") with
     | some e => decodeDashboard e.2
     | none => none⟩
  | _ => ⟨none, none, [], none⟩

/-- Read the `devices` array. -/
def decodeDevices : PyVal → List Device
  | .list xs => xs.map decodeDevice
  | _ => []

/-- Main.py lines 101–153: get a token, fetch, subscript the response with
`['body']['devices']` (line 104), then run the device loop and sort.  The
result is the dataframe's rows. -/
def prepare_data (env : Env) : Except PyError (List TemperaturePoint) := do
  let access_token ← get_access_token env
  let response_data ← fetch_data env access_token
  let body ← response_data.getItemS "body"
  let devicesVal ← body.getItemS "devices"
  prepare_points (decodeDevices devicesVal)

/-- What the browser ends up showing for one run of `main`. -/
inductive Render where
  | chart (pts : List TemperaturePoint)
  | noData
  | crashed (e : PyError)
deriving Repr

/-- Main.py lines 162–168: render the chart when the dataframe is
non-empty, the string "No temperature data available." when it is empty;
an exception out of `prepare_data` crashes the script run instead. -/
def mainRun (env : Env) : Render :=
  match prepare_data env with
  | .error e => .crashed e
  | .ok pts => if pts.isEmpty then .noData else .chart pts

/-! ### Concrete inputs used to exercise the definitions -/

/-- The demo station of spec §8: name "Kitchen", own sensor at 21.5 °C at
t0 = 1000, one attached module "Balcony" at 14.2 °C at t0 + 60 s. -/
def kitchenDevice : Device :=
  ⟨some "Kitchen", some "NAMain",
   [⟨some "Balcony", some ⟨1060, some (14.2 : ℚ)⟩⟩],
   some ⟨1000, some (21.5 : ℚ)⟩⟩

/-- A station with zero attached modules and a Temperature-bearing
dashboard. -/
def soloDevice : Device :=
  ⟨some "Attic", some "NAMain", [], some ⟨500, some (19 : ℚ)⟩⟩

/-- A station whose single module record lacks both its `module_name` key
and its dashboard data. -/
def namelessModuleDevice : Device :=
  ⟨some "Garage", some "NAMain", [⟨none, none⟩], none⟩

/-- A malformed station record with no `station_name` key. -/
def namelessDevice : Device :=
  ⟨none, some "NAMain", [], none⟩

/-- A run environment whose token exchange succeeds (and whose every other
request also answers 200 with an empty JSON object). -/
def demoEnv : Env :=
  ⟨fun url _ =>
      if url == TOKEN_URL then
        .ok ⟨200, .ok (.dict [("access_token", .str "demo-token")])⟩
      else
        .ok ⟨200, .ok (.dict [])⟩,
   1700000000, "demo-client-id", "demo-client-secret", "demo-refresh-token"⟩

/-! ### Helper lemmas shared by the claim theorems -/

/-- Main.py never binds `DEVICES_URL`, so resolving it raises `NameError`. -/
theorem lookup_DEVICES_URL :
    lookupUrlGlobal "DEVICES_URL" = .error (.nameError "DEVICES_URL") := rfl

/-- `fetch_data` returns the empty list on every environment and token:
its guarded try fails at once on the unbound name `DEVICES_URL`, and the
generic except arm returns `[]`. -/
theorem fetch_data_eq (env : Env) (access_token : PyVal) :
    fetch_data env access_token = .ok (.list []) := rfl

/-- String subscription of a list value is a `TypeError`. -/
theorem getItemS_list (xs : List PyVal) (k : String) :
    PyVal.getItemS (.list xs) k =
      .error (.typeError "list indices must be integers or slices, not str") := rfl

/-! ### Claim theorems -/

/-- C2: for every access token argument (indeed every environment),
`fetch_data` resolves the unbound name `DEVICES_URL` first, the resulting
`NameError` lands in the generic except arm, and the function returns the
empty list before the per-device loop can run. -/
theorem fetch_data_always_empty (env : Env) (access_token : PyVal) :
    lookupUrlGlobal "DEVICES_URL" = .error (.nameError "DEVICES_URL") ∧
    fetch_data env access_token = .ok (.list []) :=
  ⟨lookup_DEVICES_URL, fetch_data_eq env access_token⟩

/-- C3: on every run whose token exchange succeeds, `prepare_data` raises
`TypeError` at `response_data['body']` (line 104) — the value returned by
`fetch_data` is a list — so `main` crashes and neither the chart branch
nor the no-data branch is reached. -/
theorem prepare_data_always_raises_typeError (env : Env) (tok : PyVal)
    (h : get_access_token env = .ok tok) :
    prepare_data env =
      .error (.typeError "list indices must be integers or slices, not str") ∧
    mainRun env =
      .crashed (.typeError "list indices must be integers or slices, not str") := by
  have hp : prepare_data env =
      .error (.typeError "list indices must be integers or slices, not str") := by
    unfold prepare_data
    rw [h]
    rfl
  exact ⟨hp, by unfold mainRun; rw [hp]⟩

/-- Witness for C3 at a concrete environment whose token exchange
succeeds. -/
theorem prepare_data_always_raises_typeError_witness :
    prepare_data demoEnv =
      .error (.typeError "list indices must be integers or slices, not str") ∧
    mainRun demoEnv =
      .crashed (.typeError "list indices must be integers or slices, not str") :=
  prepare_data_always_raises_typeError demoEnv (.str "demo-token") rfl

/-- C1 (divergence witness): on a run whose readings call fails — every
run does, the request raises `NameError` on `DEVICES_URL` — `fetch_data`
does return the empty list, but the pipeline then crashes with `TypeError`
in `prepare_data`, so `main` never reaches the "No temperature data
available" branch. -/
theorem readings_failure_crashes_instead_of_noData :
    mainRun demoEnv =
      .crashed (.typeError "list indices must be integers or slices, not str") ∧
    mainRun demoEnv ≠ .noData :=
  ⟨rfl, fun h => Render.noConfusion h⟩

/-- C10: the Kitchen/Balcony payload of spec §8 shapes to exactly the two
expected points, ascending in time. -/
theorem prepare_points_kitchen :
    prepare_points [kitchenDevice] =
      .ok [⟨1000, 21.5, "Kitchen", "Main Unit"⟩,
           ⟨1060, 14.2, "Kitchen", "Balcony"⟩] := rfl

/-- C9 (divergence witness): on the Kitchen payload the aggregate
bookkeeping pairs the maximum temperature 21.5 with timestamp 1060 — the
latest capture time among the points of the device — although the 21.5
reading was captured at time 1000. -/
theorem max_temps_records_latest_time :
    shape_devices [kitchenDevice] =
      .ok ⟨[⟨1000, 21.5, "Kitchen", "Main Unit"⟩,
            ⟨1060, 14.2, "Kitchen", "Balcony"⟩],
           [("Kitchen", 2)],
           [("Kitchen", (21.5, 1060))]⟩ := by
  have h1 : shape_devices [kitchenDevice] =
      .ok ⟨[⟨1000, 21.5, "Kitchen", "Main Unit"⟩,
            ⟨1060, 14.2, "Kitchen", "Balcony"⟩],
           [("Kitchen", 2)],
           [("Kitchen", (max (21.5 : ℚ) 14.2, 1060))]⟩ := rfl
  rw [h1, show max (21.5 : ℚ) 14.2 = 21.5 from by norm_num]

/-- C5: whenever the shaping stage succeeds with at least two points, the
returned sequence is non-decreasing in timestamp. -/
theorem prepare_points_sorted (devices : List Device) (pts : List TemperaturePoint)
    (h : prepare_points devices = .ok pts) (hlen : 2 ≤ pts.length) :
    pts.Pairwise (fun a b => a.Time ≤ b.Time) := by
  unfold prepare_points at h
  cases hsd : shape_devices devices with
  | error e => rw [hsd] at h; cases h
  | ok st =>
    rw [hsd] at h
    injection h with h
    subst h
    exact List.sorted_insertionSort timeLE st.data_list

/-- Witness for C5 on the Kitchen payload, which shapes to two points. -/
theorem prepare_points_sorted_witness :
    List.Pairwise (fun a b : TemperaturePoint => a.Time ≤ b.Time)
      [⟨1000, 21.5, "Kitchen", "Main Unit"⟩, ⟨1060, 14.2, "Kitchen", "Balcony"⟩] :=
  prepare_points_sorted [kitchenDevice]
    [⟨1000, 21.5, "Kitchen", "Main Unit"⟩, ⟨1060, 14.2, "Kitchen", "Balcony"⟩]
    rfl (by decide)

/-- C6: a station record with zero attached modules and a
Temperature-bearing dashboard contributes exactly one point, labeled
"Main Unit". -/
theorem shapeDevice_no_modules (st : ShapeState) (d : Device) (dn ty : String)
    (dd : Dashboard) (t : ℚ)
    (hmods : d.modules = []) (hn : d.station_name = some dn) (hty : d.type = some ty)
    (hdd : d.dashboard_data = some dd) (ht : dd.Temperature = some t) :
    ∃ st2, shapeDevice st d = .ok st2 ∧
      st2.data_list = st.data_list ++ [⟨dd.time_utc, t, dn, "Main Unit"⟩] := by
  have hmu : mainUnitStep dn d.dashboard_data = some ⟨dd.time_utc, t, dn, "Main Unit"⟩ := by
    unfold mainUnitStep
    rw [hdd]
    dsimp only
    rw [ht]
  unfold shapeDevice
  rw [hn]
  dsimp only
  rw [hty]
  dsimp only
  rw [hmu]
  dsimp only
  unfold shapeDeviceRest
  rw [hmods]
  dsimp only [shapeModules, maxWithNegInf]
  cases hmx : (((st.data_list ++
        [(⟨dd.time_utc, t, dn, "Main Unit"⟩ : TemperaturePoint)]).filter
      (fun p => p.Device == dn)).map (fun p => p.Time)).max? with
  | none =>
    exfalso
    rw [List.max?_eq_none_iff] at hmx
    simp [List.filter_append] at hmx
  | some mtt => exact ⟨_, rfl, rfl⟩

/-- Witness for C6: a concrete moduleless station emits one Main Unit
point. -/
theorem shapeDevice_no_modules_witness :
    ∃ st2, shapeDevice ⟨[], [], []⟩ soloDevice = .ok st2 ∧
      st2.data_list = [⟨500, 19, "Attic", "Main Unit"⟩] :=
  shapeDevice_no_modules ⟨[], [], []⟩ soloDevice "Attic" "NAMain" ⟨500, some 19⟩ 19
    rfl rfl rfl rfl rfl

/-- C7 counterexample: a module record that lacks its dashboard data (and,
being malformed, also its module_name key) makes the shaper raise
`KeyError` at line 129 instead of being skipped. -/
theorem shaper_raises_on_nameless_module :
    shape_devices [namelessModuleDevice] = .error (.keyError "module_name") := rfl

/-- C7 amended: a module record that does carry its module-name key and
lacks a Temperature measurement (or all dashboard data) is skipped without
an exception, and the loop continues over the remaining records
unchanged. -/
theorem shapeModules_skips_no_temperature (dn nm : String) (m : Module)
    (hname : m.module_name = some nm)
    (hnoT : m.dashboard_data = none ∨
      ∃ dd, m.dashboard_data = some dd ∧ dd.Temperature = none)
    (dl : List TemperaturePoint) (cs : List (String × Nat)) (mt : Option ℚ)
    (ms : List Module) :
    moduleStep dn m = .ok none ∧
    shapeModules dn dl cs mt (m :: ms) = shapeModules dn dl cs mt ms := by
  have hstep : moduleStep dn m = .ok none := by
    unfold moduleStep
    rw [hname]
    dsimp only
    rcases hnoT with h | ⟨dd, hdd, ht⟩
    · rw [h]
    · rw [hdd]
      dsimp only
      rw [ht]
  refine ⟨hstep, ?_⟩
  simp only [shapeModules]
  rw [hstep]

/-- Witness for C7 on a concrete named module with no dashboard data. -/
theorem shapeModules_skips_no_temperature_witness :
    moduleStep "Kitchen" ⟨some "Bedroom", none⟩ = .ok none ∧
    shapeModules "Kitchen" [] [] none [⟨some "Bedroom", none⟩] =
      shapeModules "Kitchen" [] [] none [] :=
  shapeModules_skips_no_temperature "Kitchen" "Bedroom" ⟨some "Bedroom", none⟩ rfl
    (Or.inl rfl) [] [] none []

/-- C8 counterexample: a device record with no station_name key makes the
shaper raise `KeyError` at line 110 rather than skip it with a warning. -/
theorem shaper_raises_on_nameless_device :
    shape_devices [namelessDevice] = .error (.keyError "station_name") := rfl

/-- C8 amended: the shaper has no skip-with-warning path for malformed
records: a device record missing its station-name key and a module record
missing its module-name key each raise `KeyError`, aborting the run (the
skip-with-warning on a device with no id lives only in the unreachable
per-device loop of `fetch_data`). -/
theorem shaper_keyError_on_malformed (st : ShapeState) (d : Device) (dn : String)
    (m : Module) (hd : d.station_name = none) (hm : m.module_name = none) :
    shapeDevice st d = .error (.keyError "station_name") ∧
    moduleStep dn m = .error (.keyError "module_name") := by
  constructor
  · unfold shapeDevice; rw [hd]
  · unfold moduleStep; rw [hm]

/-- Witness for C8 on concrete malformed records. -/
theorem shaper_keyError_on_malformed_witness :
    shapeDevice ⟨[], [], []⟩ namelessDevice = .error (.keyError "station_name") ∧
    moduleStep "Kitchen" ⟨none, none⟩ = .error (.keyError "module_name") :=
  shaper_keyError_on_malformed ⟨[], [], []⟩ namelessDevice "Kitchen" ⟨none, none⟩ rfl rfl

/-! ### Origin tracking for C4 -/

/-- Point `p` is exactly what the device loop emits from record `d`: the
Device field is the station name, and either the main-unit reading or a
matching module reading carries that Temperature at that time. -/
def PointFromDevice (d : Device) (p : TemperaturePoint) : Prop :=
  d.station_name = some p.Device ∧
  ((p.Module = "Main Unit" ∧
      ∃ dd, d.dashboard_data = some dd ∧ dd.Temperature = some p.Temperature ∧
        dd.time_utc = p.Time) ∨
    (∃ m, m ∈ d.modules ∧ m.module_name = some p.Module ∧
      ∃ dd, m.dashboard_data = some dd ∧ dd.Temperature = some p.Temperature ∧
        dd.time_utc = p.Time))

/-- A point emitted by `moduleStep` carries exactly the fields of the
module record it came from. -/
theorem moduleStep_some {dn : String} {m : Module} {p : TemperaturePoint}
    (h : moduleStep dn m = .ok (some p)) :
    p.Device = dn ∧ m.module_name = some p.Module ∧
      ∃ dd, m.dashboard_data = some dd ∧ dd.Temperature = some p.Temperature ∧
        dd.time_utc = p.Time := by
  unfold moduleStep at h
  cases hm : m.module_name with
  | none => rw [hm] at h; cases h
  | some nm =>
    rw [hm] at h
    dsimp only at h
    cases hd : m.dashboard_data with
    | none => rw [hd] at h; cases h
    | some dd =>
      rw [hd] at h
      dsimp only at h
      cases ht : dd.Temperature with
      | none => rw [ht] at h; cases h
      | some t =>
        rw [ht] at h
        dsimp only at h
        injection h with h
        injection h with h
        subst h
        exact ⟨rfl, rfl, dd, rfl, ht, rfl⟩

/-- A point emitted by `mainUnitStep` carries exactly the fields of the
station dashboard it came from, labeled "Main Unit". -/
theorem mainUnitStep_some {dn : String} {ddo : Option Dashboard} {p : TemperaturePoint}
    (h : mainUnitStep dn ddo = some p) :
    p.Device = dn ∧ p.Module = "Main Unit" ∧
      ∃ dd, ddo = some dd ∧ dd.Temperature = some p.Temperature ∧
        dd.time_utc = p.Time := by
  unfold mainUnitStep at h
  cases ddo with
  | none => cases h
  | some dd =>
    dsimp only at h
    cases ht : dd.Temperature with
    | none => rw [ht] at h; cases h
    | some t =>
      rw [ht] at h
      dsimp only at h
      injection h with h
      subst h
      exact ⟨rfl, rfl, dd, rfl, ht, rfl⟩

/-- Any point in the output of the module loop is carried over from its
input list or originates in one of the processed module records. -/
theorem shapeModules_mem {dn : String} {ms : List Module} {dl dl2 : List TemperaturePoint}
    {cs cs2 : List (String × Nat)} {mt mt2 : Option ℚ}
    (h : shapeModules dn dl cs mt ms = .ok (dl2, cs2, mt2)) :
    ∀ p ∈ dl2, p ∈ dl ∨
      (p.Device = dn ∧ ∃ m, m ∈ ms ∧ m.module_name = some p.Module ∧
        ∃ dd, m.dashboard_data = some dd ∧ dd.Temperature = some p.Temperature ∧
          dd.time_utc = p.Time) := by
  induction ms generalizing dl cs mt with
  | nil =>
    unfold shapeModules at h
    injection h with h
    simp only [Prod.mk.injEq] at h
    obtain ⟨h1, _, _⟩ := h
    subst h1
    intro p hp
    exact Or.inl hp
  | cons m ms ih =>
    unfold shapeModules at h
    cases hstep : moduleStep dn m with
    | error e => rw [hstep] at h; cases h
    | ok opt =>
      rw [hstep] at h
      cases opt with
      | none =>
        dsimp only at h
        intro p hp
        rcases ih h p hp with hin | ⟨hdev, m1, hm1, rest⟩
        · exact Or.inl hin
        · exact Or.inr ⟨hdev, m1, List.mem_cons_of_mem m hm1, rest⟩
      | some q =>
        dsimp only at h
        intro p hp
        rcases ih h p hp with hin | ⟨hdev, m1, hm1, rest⟩
        · rcases List.mem_append.1 hin with h1 | h1
          · exact Or.inl h1
          · have hpq : p = q := List.mem_singleton.1 h1
            subst hpq
            obtain ⟨hdev, hname, dd, hdd, ht, htime⟩ := moduleStep_some hstep
            exact Or.inr ⟨hdev, m, List.mem_cons_self m ms, hname, dd, hdd, ht, htime⟩
        · exact Or.inr ⟨hdev, m1, List.mem_cons_of_mem m hm1, rest⟩

/-- Any point in the state after `shapeDeviceRest` is carried over from its
input list or originates in a module record of the device. -/
theorem shapeDeviceRest_mem {st st2 : ShapeState} {d : Device} {dn : String}
    {dl : List TemperaturePoint} {cs : List (String × Nat)} {mt : Option ℚ}
    (h : shapeDeviceRest st d dn dl cs mt = .ok st2) :
    ∀ p ∈ st2.data_list, p ∈ dl ∨
      (p.Device = dn ∧ ∃ m, m ∈ d.modules ∧ m.module_name = some p.Module ∧
        ∃ dd, m.dashboard_data = some dd ∧ dd.Temperature = some p.Temperature ∧
          dd.time_utc = p.Time) := by
  unfold shapeDeviceRest at h
  cases hsm : shapeModules dn dl cs mt d.modules with
  | error e => rw [hsm] at h; cases h
  | ok triple =>
    obtain ⟨dl2, cs2, mt2⟩ := triple
    rw [hsm] at h
    dsimp only at h
    cases mt2 with
    | none =>
      dsimp only at h
      injection h with h
      subst h
      intro p hp
      exact shapeModules_mem hsm p hp
    | some mx =>
      dsimp only at h
      cases hmx : ((dl2.filter (fun p => p.Device == dn)).map (fun p => p.Time)).max? with
      | none => rw [hmx] at h; cases h
      | some mtt =>
        rw [hmx] at h
        dsimp only at h
        injection h with h
        subst h
        intro p hp
        exact shapeModules_mem hsm p hp

/-- Any point in the state after one device iteration is carried over or
originates in that device record. -/
theorem shapeDevice_mem {st st2 : ShapeState} {d : Device}
    (h : shapeDevice st d = .ok st2) :
    ∀ p ∈ st2.data_list, p ∈ st.data_list ∨ PointFromDevice d p := by
  unfold shapeDevice at h
  cases hn : d.station_name with
  | none => rw [hn] at h; cases h
  | some dn =>
    rw [hn] at h
    dsimp only at h
    cases hty : d.type with
    | none => rw [hty] at h; cases h
    | some ty =>
      rw [hty] at h
      dsimp only at h
      cases hmu : mainUnitStep dn d.dashboard_data with
      | none =>
        rw [hmu] at h
        dsimp only at h
        intro p hp
        rcases shapeDeviceRest_mem h p hp with hin | ⟨hdev, morig⟩
        · exact Or.inl hin
        · exact Or.inr ⟨by rw [hn, hdev], Or.inr morig⟩
      | some q =>
        rw [hmu] at h
        dsimp only at h
        intro p hp
        rcases shapeDeviceRest_mem h p hp with hin | ⟨hdev, morig⟩
        · rcases List.mem_append.1 hin with h1 | h1
          · exact Or.inl h1
          · have hpq : p = q := List.mem_singleton.1 h1
            subst hpq
            obtain ⟨hdev2, hmod, dd, hdd, ht, htime⟩ := mainUnitStep_some hmu
            exact Or.inr ⟨by rw [hn, hdev2], Or.inl ⟨hmod, dd, hdd, ht, htime⟩⟩
        · exact Or.inr ⟨by rw [hn, hdev], Or.inr morig⟩

/-- Any point accumulated by the whole device loop is carried over from the
starting state or originates in one of the devices. -/
theorem shapeDevicesFrom_mem {devices : List Device} {st st2 : ShapeState}
    (h : shapeDevicesFrom st devices = .ok st2) :
    ∀ p ∈ st2.data_list, p ∈ st.data_list ∨ ∃ d, d ∈ devices ∧ PointFromDevice d p := by
  induction devices generalizing st with
  | nil =>
    unfold shapeDevicesFrom at h
    injection h with h
    subst h
    intro p hp
    exact Or.inl hp
  | cons d ds ih =>
    unfold shapeDevicesFrom at h
    cases hsd : shapeDevice st d with
    | error e => rw [hsd] at h; cases h
    | ok st1 =>
      rw [hsd] at h
      dsimp only at h
      intro p hp
      rcases ih h p hp with hin | ⟨d1, hd1, horig⟩
      · rcases shapeDevice_mem hsd p hin with h2 | h2
        · exact Or.inl h2
        · exact Or.inr ⟨d, List.mem_cons_self d ds, h2⟩
      · exact Or.inr ⟨d1, List.mem_cons_of_mem d hd1, horig⟩

/-- C4: every point emitted by the shaper originates in an input station or
module record whose dashboard data carries a Temperature value; the Device
field is that station's name, the Module field the module's name or "Main
Unit" for the station's own sensor. -/
theorem prepare_points_from_input (devices : List Device) (pts : List TemperaturePoint)
    (h : prepare_points devices = .ok pts) :
    ∀ p ∈ pts, ∃ d, d ∈ devices ∧ PointFromDevice d p := by
  unfold prepare_points at h
  cases hsd : shape_devices devices with
  | error e => rw [hsd] at h; cases h
  | ok st =>
    rw [hsd] at h
    injection h with h
    subst h
    intro p hp
    unfold sortPoints at hp
    rw [List.mem_insertionSort] at hp
    rcases shapeDevicesFrom_mem hsd p hp with hin | hex
    · cases hin
    · exact hex

/-- Witness for C4: the first Kitchen point originates in the Kitchen
station record. -/
theorem prepare_points_from_input_witness :
    ∃ d, d ∈ [kitchenDevice] ∧
      PointFromDevice d ⟨1000, 21.5, "Kitchen", "Main Unit"⟩ :=
  prepare_points_from_input [kitchenDevice]
    [⟨1000, 21.5, "Kitchen", "Main Unit"⟩, ⟨1060, 14.2, "Kitchen", "Balcony"⟩] rfl
    ⟨1000, 21.5, "Kitchen", "Main Unit"⟩ (List.Mem.head _)

end Netatmo
